import Mathlib

/-!
# Verification of `build_ut.py` (rialto-gstreamer unit-test build script)

Shallow embedding of the build/test orchestration script `build_ut.py`.
External effects are modelled explicitly:

* running an external command (`subprocess.run`) is modelled by an oracle
  `exec : List String → Int` giving the exit code of each command line;
* the sequence of commands actually executed is collected as a trace
  (`List Cmd`);
* `sys.exit(msg)` is the `Outcome.sysExit` constructor, `raise Exception(msg)`
  is `Outcome.raised`, normal return is `Outcome.ok`;
* filesystem operations of `checkAndRemoveFiles` (existence checks,
  `shutil.rmtree`, `os.remove`) are modelled by the `FsWorld` oracle, a raised
  exception being an `Option String` error;
* `multiprocessing.cpu_count()`, the directory of the script
  (`os.path.realpath(os.path.dirname(__file__))`) and whether `open` of the
  coverage statistics file succeeds are further fields of the environment.
-/

/-- A command line, as the list of its arguments (Python list passed to
`subprocess.run`). -/
abbrev Cmd := List String

/-- Result of `subprocess.run`: the fields of `CompletedProcess` that the
script reads (`returncode` and `args`). -/
structure CompletedProcess where
  returncode : Int
  args : Cmd
deriving DecidableEq, Repr

/-- How a modelled piece of the script finishes: normal value, process
termination via `sys.exit`, or an uncaught Python exception. -/
inductive Outcome (α : Type) where
  | ok : α → Outcome α
  | sysExit : String → Outcome α
  | raised : String → Outcome α
deriving DecidableEq, Repr

/-- `Outcome.isSysExit o` holds exactly when the modelled run terminated the
process through `sys.exit`. -/
def Outcome.isSysExit {α : Type} : Outcome α → Bool
  | .sysExit _ => true
  | _ => false

/-- Oracle for `checkAndRemoveFiles`: which of the two targets exist and
whether their removal raises (the raised message, if so). -/
structure FsWorld where
  includeDirsExists : Bool
  sourceFileExists : Bool
  rmtreeError : Option String
  removeError : Option String

/-- The external world the script runs in. -/
structure Env where
  /-- exit code returned by `subprocess.run` for each command line -/
  exec : Cmd → Int
  /-- `multiprocessing.cpu_count()` -/
  cpuCount : Nat
  /-- `os.path.realpath(os.path.dirname(__file__))` -/
  scriptDir : String
  /-- filesystem state seen by `checkAndRemoveFiles` -/
  fsw : FsWorld
  /-- whether `open(... + "coverage_statistics.txt", "w")` raises -/
  statsOpenFails : Bool

-- Default variables of the script (`build_ut.py`, lines 30-33)
def resultOutput : String := "gtest_result"
def valgrindOutput : String := "valgrind_report"
def valgrindErrorCode : Int := 101
def valgrindIgnore : String := "rialto-gstreamer.supp"

/-- The message `runcmd` passes to `sys.exit` (line 42).  `status.args` is the
command list, joined with spaces. -/
def sysExitMsg (cmd : Cmd) (rc : Int) : String :=
  "Command: \"" ++ String.intercalate " " cmd ++ "\" returned with " ++
    toString rc ++ " error code!"

/-- `runcmd` (lines 36-42): run the command; return the status when the exit
code is `0` or `valgrindErrorCode`, otherwise terminate via `sys.exit`. -/
def runcmd (env : Env) (cmd : Cmd) : Outcome CompletedProcess :=
  let rc := env.exec cmd
  if rc = 0 ∨ rc = valgrindErrorCode then .ok ⟨rc, cmd⟩
  else .sysExit (sysExitMsg cmd rc)

-- Paths removed by `checkAndRemoveFiles` (lines 45-46)
def includeDirs : String := "tests/third-party/include"
def sourceFile : String :=
  "tests/third-party/source/RialtoGStreamerEMEProtectionMetadata.cpp"

/-- Body of the `try` block of `checkAndRemoveFiles` (lines 48-55): the lines
printed before an exception, and the exception if one is raised. -/
def checkAndRemoveTry (fsw : FsWorld) : List String × Option String :=
  if fsw.includeDirsExists then
    let p1 := "Removing files within: " ++ includeDirs
    match fsw.rmtreeError with
    | some e => ([p1], some e)
    | none =>
      if fsw.sourceFileExists then
        let p2 := "Removing file: " ++ sourceFile
        match fsw.removeError with
        | some e => ([p1, p2], some e)
        | none => ([p1, p2], none)
      else ([p1], none)
  else
    if fsw.sourceFileExists then
      let p2 := "Removing file: " ++ sourceFile
      match fsw.removeError with
      | some e => ([p2], some e)
      | none => ([p2], none)
    else ([], none)

/-- `checkAndRemoveFiles` (lines 44-57): any exception of the body is caught
and logged (`except Exception as e: print(...)`); the function always returns
normally.  Result: the printed lines and the outcome. -/
def checkAndRemoveFiles (fsw : FsWorld) : List String × Outcome Unit :=
  let (prints, exc) := checkAndRemoveTry fsw
  match exc with
  | some e => (prints ++ ["An error occurred: " ++ e], .ok ())
  | none => (prints, .ok ())

/-- The `rm` command of the clean stage (line 104). -/
def rmCmdOf (outputArg : String) : Cmd :=
  ["rm", "-rf", outputArg, resultOutput ++ ".log", valgrindOutput ++ ".log"]

/-- The clean block of `main` (lines 101-105): `checkAndRemoveFiles` followed
by `runcmd` of the `rm` command. -/
def cleanStage (env : Env) (outputArg : String) : List Cmd × Outcome Unit :=
  let _ := checkAndRemoveFiles env.fsw
  let executeCmd := rmCmdOf outputArg
  match runcmd env executeCmd with
  | .ok _ => ([executeCmd], .ok ())
  | .sysExit m => ([executeCmd], .sysExit m)
  | .raised m => ([executeCmd], .raised m)

/-- One entry of the `suitesToRun` mapping: suite binary name and path. -/
structure SuiteInfo where
  suite : String
  path : String
deriving DecidableEq, Repr

/-- The single configured suite (line 95). -/
def gstSuite : SuiteInfo := ⟨"GstRialtoUnitTests", "/tests/ut/"⟩

/-- `suitesToRun` (line 95), as an association list in iteration order. -/
def suitesToRun : List (String × SuiteInfo) := [("gst", gstSuite)]

/-- The `cmake` command of `buildTargets` (lines 137-140). -/
def cmakeCmdOf (outputDir branch : String) (coverage : Bool) : Cmd :=
  let base := ["cmake", "-B", outputDir, "-DCMAKE_BUILD_FLAG=UnitTests",
    "-DRIALTO_ENABLE_X_RAW=1", "-DBUILD_BRANCH=" ++ branch]
  if coverage then base ++ ["-DCOVERAGE_ENABLED=1"] else base

/-- The `make` command of `buildTargets` (lines 144-147). -/
def makeCmdOf (cpuCount : Nat) (suites : List (String × SuiteInfo)) : Cmd :=
  ["make", "-j" ++ toString cpuCount] ++ suites.map (fun p => p.2.suite)

/-- `buildTargets` (lines 135-153): `runcmd` of `cmake`, then `runcmd` of
`make` (the `resultsFile`/`debug` parameters only affect output redirection,
not the commands run). -/
def buildTargets (env : Env) (suites : List (String × SuiteInfo))
    (outputDir : String) (resultsFile : Option String) (debug coverage : Bool)
    (branch : String) : List Cmd × Outcome Unit :=
  let _ := debug
  let _ := resultsFile
  let cmakeCmd := cmakeCmdOf outputDir branch coverage
  match runcmd env cmakeCmd with
  | .sysExit m => ([cmakeCmd], .sysExit m)
  | .raised m => ([cmakeCmd], .raised m)
  | .ok _ =>
    let makeCmd := makeCmdOf env.cpuCount suites
    match runcmd env makeCmd with
    | .ok _ => ([cmakeCmd, makeCmd], .ok ())
    | .sysExit m => ([cmakeCmd, makeCmd], .sysExit m)
    | .raised m => ([cmakeCmd, makeCmd], .raised m)

/-- `AddValgrind` (lines 198-214): the valgrind prefix of the test command. -/
def AddValgrind (scriptDir suite : String) (outputToFile outputToXml : Bool) :
    List String :=
  let base := ["valgrind", "--leak-check=full", "--show-leak-kinds=all",
    "--track-origins=yes", "--verbose",
    "--error-exitcode=" ++ toString valgrindErrorCode]
  let base2 :=
    if outputToXml then
      base ++ ["--xml=yes",
        "--xml-file=" ++ suite ++ "_" ++ valgrindOutput ++ ".xml"]
    else if outputToFile then
      base ++ ["--log-file=" ++ suite ++ "_" ++ valgrindOutput ++ ".log"]
    else base
  base2 ++ ["--suppressions=" ++ scriptDir ++ "/" ++ valgrindIgnore]

/-- The per-call configuration of `runTests` (its parameters other than the
suites). -/
structure TestCfg where
  doListTests : Bool
  gtestFilter : Option String
  outputDir : String
  resultsFile : Option String
  xmlFile : Option String
  valgrind : Bool
  coverage : Bool

/-- The command `runTests` builds for one suite (lines 160-176). -/
def testCmdFor (env : Env) (cfg : TestCfg) (key : String) (s : SuiteInfo) :
    Cmd :=
  let c0 : Cmd :=
    if cfg.valgrind then
      AddValgrind env.scriptDir key cfg.resultsFile.isSome cfg.xmlFile.isSome
    else []
  let c1 := c0 ++ ["." ++ s.path ++ s.suite]
  let c2 :=
    if cfg.doListTests then c1 ++ ["--gtest_list_tests"]
    else
      match cfg.gtestFilter with
      | some gf => c1 ++ ["--gtest_filter=" ++ gf]
      | none => c1
  match cfg.xmlFile with
  | some x =>
    if cfg.valgrind = false then
      c2 ++ ["--gtest_output=xml:" ++ key ++ "_" ++ x]
    else c2
  | none => c2

/-- The `for key in suites` loop of `runTests` (lines 159-190), carrying the
`hasFailed` flag.  Each iteration runs the suite command through `runcmd`;
exit code `valgrindErrorCode` (and, were it reachable, any other non-zero
code of a returned status) sets `hasFailed`. -/
def runTestsLoop (env : Env) (cfg : TestCfg) :
    List (String × SuiteInfo) → Bool → List Cmd × Outcome Bool
  | [], hasFailed => ([], .ok hasFailed)
  | (key, s) :: rest, hasFailed =>
    let cmd := testCmdFor env cfg key s
    match runcmd env cmd with
    | .ok status =>
      let hasFailed' :=
        if status.returncode = valgrindErrorCode then true
        else if status.returncode ≠ 0 then true
        else hasFailed
      let (tr, out) := runTestsLoop env cfg rest hasFailed'
      (cmd :: tr, out)
    | .sysExit m => ([cmd], .sysExit m)
    | .raised m => ([cmd], .raised m)

/-- A Python value as returned by `generateCoverageReport`: either the
boolean `False` or a `CompletedProcess` instance. -/
inductive PyVal where
  | pyFalse : PyVal
  | proc : CompletedProcess → PyVal
deriving DecidableEq, Repr

/-- Python truthiness of a `CompletedProcess`: instances without `__bool__`
or `__len__` are always truthy. -/
def truthy (_ : CompletedProcess) : Bool := true

/-- Python truthiness of the values `generateCoverageReport` handles. -/
def truthyVal : PyVal → Bool
  | .pyFalse => false
  | .proc _ => true

/-- Python `a and b` on such values: `a` if `a` is falsy, else `b`. -/
def pyAnd (a b : PyVal) : PyVal := if truthyVal a then b else a

/-- Python truthiness of an open file object (line 248, `if statsFile:`):
`open` either raises or returns a (truthy) file object. -/
def fileTruthy : Bool := true

/-- `Outcome.isOkPyFalse o` holds exactly when the modelled function returned
the Python boolean `False` normally. -/
def Outcome.isOkPyFalse : Outcome PyVal → Bool
  | .ok .pyFalse => true
  | _ => false

-- The five coverage-pipeline commands (lines 217-246)
def lcovBaseCmd : Cmd :=
  ["lcov", "-c", "-i", "-d", ".", "-o", "coverage_base.info", "--exclude",
    "/usr/*", "--exclude", "*build/*", "--exclude", "*tests/*", "--filter",
    "brace,function,trivial"]
def lcovTestCmd : Cmd :=
  ["lcov", "-c", "-d", ".", "-o", "coverage_test.info", "--exclude",
    "/usr/*", "--exclude", "*build/*", "--exclude", "*tests/*", "--filter",
    "brace,function,trivial"]
def lcovCombineCmd : Cmd :=
  ["lcov", "-a", "coverage_base.info", "-a", "coverage_test.info", "-o",
    "coverage.info", "--filter", "brace,function,trivial"]
def genHtmlCmd : Cmd :=
  ["genhtml", "coverage.info", "--output-directory",
    "gh_pages/coverage_report", "--filter", "brace,function,trivial"]
def genStatsCmd : Cmd :=
  ["lcov", "--summary", "coverage.info", "--filter", "brace,function,trivial"]

/-- All commands `generateCoverageReport` can run. -/
def covCmds : List Cmd :=
  [lcovBaseCmd, lcovTestCmd, lcovCombineCmd, genHtmlCmd, genStatsCmd]

/-- `generateCoverageReport` (lines 216-253).  Each `lcov`/`genhtml` step goes
through `runcmd`; after the first three steps the code tests
`if not status: return False` on the returned `CompletedProcess`
(its Python truthiness is `truthy`); the statistics file is opened (which may
raise) and, if truthy, the summary step runs; the function returns
`genHtmlStatus and genStatsStatus`.  The `resultsFile` parameter only
redirects output. -/
def generateCoverageReport (env : Env) (outputDir : String)
    (resultsFile : Option String) : List Cmd × Outcome PyVal :=
  let _ := outputDir
  let _ := resultsFile
  match runcmd env lcovBaseCmd with
  | .sysExit m => ([lcovBaseCmd], .sysExit m)
  | .raised m => ([lcovBaseCmd], .raised m)
  | .ok st1 =>
    if truthy st1 = false then ([lcovBaseCmd], .ok .pyFalse)
    else
      match runcmd env lcovTestCmd with
      | .sysExit m => ([lcovBaseCmd, lcovTestCmd], .sysExit m)
      | .raised m => ([lcovBaseCmd, lcovTestCmd], .raised m)
      | .ok st2 =>
        if truthy st2 = false then ([lcovBaseCmd, lcovTestCmd], .ok .pyFalse)
        else
          match runcmd env lcovCombineCmd with
          | .sysExit m => ([lcovBaseCmd, lcovTestCmd, lcovCombineCmd], .sysExit m)
          | .raised m => ([lcovBaseCmd, lcovTestCmd, lcovCombineCmd], .raised m)
          | .ok st3 =>
            if truthy st3 = false then
              ([lcovBaseCmd, lcovTestCmd, lcovCombineCmd], .ok .pyFalse)
            else
              match runcmd env genHtmlCmd with
              | .sysExit m =>
                ([lcovBaseCmd, lcovTestCmd, lcovCombineCmd, genHtmlCmd], .sysExit m)
              | .raised m =>
                ([lcovBaseCmd, lcovTestCmd, lcovCombineCmd, genHtmlCmd], .raised m)
              | .ok st4 =>
                -- note: `genHtmlStatus` is not tested before the stats step
                if env.statsOpenFails then
                  ([lcovBaseCmd, lcovTestCmd, lcovCombineCmd, genHtmlCmd],
                    .raised "could not open coverage_statistics.txt")
                else if fileTruthy then
                  match runcmd env genStatsCmd with
                  | .sysExit m => (covCmds, .sysExit m)
                  | .raised m => (covCmds, .raised m)
                  | .ok st5 =>
                    (covCmds, .ok (pyAnd (.proc st4) (.proc st5)))
                else
                  ([lcovBaseCmd, lcovTestCmd, lcovCombineCmd, genHtmlCmd],
                    .ok (pyAnd (.proc st4) .pyFalse))

/-- `runTests` (lines 156-195): run the loop; if any suite failed raise the
aggregate exception, else if coverage was requested run
`generateCoverageReport` (whose return value is discarded). -/
def runTests (env : Env) (cfg : TestCfg)
    (suites : List (String × SuiteInfo)) : List Cmd × Outcome Unit :=
  match runTestsLoop env cfg suites false with
  | (tr, .ok hasFailed) =>
    if hasFailed then (tr, .raised "runTests has failed, exiting")
    else if cfg.coverage then
      match generateCoverageReport env cfg.outputDir cfg.resultsFile with
      | (tr2, .ok _) => (tr ++ tr2, .ok ())
      | (tr2, .sysExit m) => (tr ++ tr2, .sysExit m)
      | (tr2, .raised m) => (tr ++ tr2, .raised m)
    else (tr, .ok ())
  | (tr, .sysExit m) => (tr, .sysExit m)
  | (tr, .raised m) => (tr, .raised m)

/-- The parsed command-line arguments (lines 61-91), with their argparse
defaults.  `file`/`xml` given without a value parse as `some ""` (the
`const=""` forms). -/
structure Args where
  output : String := "build"
  file : Option String := none
  xml : Option String := none
  googletestFilter : Option String := none
  listTests : Bool := false
  clean : Bool := false
  noBuild : Bool := false
  noTest : Bool := false
  valgrind : Bool := false
  coverage : Bool := false
  branch : String := ""

/-- The default invocation (no flags given). -/
def defaultArgs : Args := {}

/-- The results-file name `main` computes (lines 108-114), `none` when no
`-f` was given. -/
def resultsFileOf (args : Args) : Option String :=
  args.file.map (fun s => if s = "" then resultOutput ++ ".log" else s)

/-- The xml-file name `main` computes (lines 117-123). -/
def xmlFileOf (args : Args) : Option String :=
  args.xml.map (fun s => if s = "" then resultOutput ++ ".xml" else s)

/-- The `TestCfg` that `main` passes to `runTests` (lines 130-132). -/
def mainCfg (args : Args) : TestCfg :=
  ⟨args.listTests, args.googletestFilter, args.output, resultsFileOf args,
    xmlFileOf args, args.valgrind, args.coverage⟩

/-- The test command `main`'s single configured suite produces. -/
def mainTestCmd (env : Env) (args : Args) : Cmd :=
  testCmdFor env (mainCfg args) "gst" gstSuite

/-- `main` (lines 59-132): optional clean stage, optional build stage,
optional test stage, in that order; `sys.exit`/exceptions of a stage stop the
following stages.  (Setting `RIALTO_SINKS_RANK` and the opening of the log
file are not observable in this model.) -/
def mainRun (env : Env) (args : Args) : List Cmd × Outcome Unit :=
  let (tr1, out1) :=
    if args.clean then cleanStage env args.output else ([], .ok ())
  match out1 with
  | .ok _ =>
    let (tr2, out2) :=
      if args.noBuild = false then
        buildTargets env suitesToRun args.output (resultsFileOf args)
          args.valgrind args.coverage args.branch
      else ([], .ok ())
    match out2 with
    | .ok _ =>
      let (tr3, out3) :=
        if args.noTest = false then runTests env (mainCfg args) suitesToRun
        else ([], .ok ())
      (tr1 ++ tr2 ++ tr3, out3)
    | .sysExit m => (tr1 ++ tr2, .sysExit m)
    | .raised m => (tr1 ++ tr2, .raised m)
  | .sysExit m => (tr1, .sysExit m)
  | .raised m => (tr1, .raised m)

/-! ## Helper lemmas -/

/-- `beginsWith p s`: `p` is an initial segment of `s` (used to recognise a
flag regardless of its value part). -/
def beginsWith : List Char → List Char → Bool
  | [], _ => true
  | _ :: _, [] => false
  | p :: ps, c :: cs => p == c && beginsWith ps cs

/-- `a` starts with the googletest structured-output flag. -/
def isGtestOutputArg (a : String) : Bool := beginsWith "--gtest_output=".data a.data

/-- `a` starts with the googletest filter flag. -/
def isGtestFilterArg (a : String) : Bool := beginsWith "--gtest_filter=".data a.data

lemma beginsWith_get? : ∀ (p s : List Char), beginsWith p s = true →
    ∀ n, n < p.length → p[n]? = s[n]?
  | [], _, _, n, hn => absurd hn (by simp)
  | _ :: _, [], h, _, _ => by simp [beginsWith] at h
  | p :: ps, c :: cs, h, n, hn => by
    rw [beginsWith, Bool.and_eq_true, beq_iff_eq] at h
    obtain ⟨h1, h2⟩ := h
    cases n with
    | zero => simp [h1]
    | succ m =>
      simpa using beginsWith_get? ps cs h2 m (by simpa using hn)

lemma beginsWith_false_of_get? (p s : List Char) (n : Nat) (hnp : n < p.length)
    (h : p[n]? ≠ s[n]?) : beginsWith p s = false := by
  cases hb : beginsWith p s
  · rfl
  · exact absurd (beginsWith_get? p s hb n hnp) h

lemma strDataAppend (a b : String) : (a ++ b).data = a.data ++ b.data := rfl

lemma strApp_getElem?_left (b t : String) (n : Nat) (hn : n < b.data.length) :
    (b ++ t).data[n]? = b.data[n]? := by
  rw [strDataAppend]; exact List.getElem?_append_left hn

/-- A pattern whose character at position `n` differs from that of the
literal head `b` is not an initial segment of `b ++ t`, whatever `t`. -/
lemma beginsWith_lit_app_false (p b t : String) (n : Nat)
    (hnp : n < p.data.length) (hnb : n < b.data.length)
    (h : p.data[n]? ≠ b.data[n]?) :
    beginsWith p.data (b ++ t).data = false := by
  apply beginsWith_false_of_get? _ _ n hnp
  rw [strApp_getElem?_left b t n hnb]; exact h

lemma runcmd_ok_inv {env : Env} {cmd : Cmd} {st : CompletedProcess}
    (h : runcmd env cmd = .ok st) :
    st = ⟨env.exec cmd, cmd⟩ ∧
      (env.exec cmd = 0 ∨ env.exec cmd = valgrindErrorCode) := by
  by_cases hc : env.exec cmd = 0 ∨ env.exec cmd = valgrindErrorCode
  · refine ⟨?_, hc⟩
    unfold runcmd at h
    rw [if_pos hc] at h
    cases h
    rfl
  · unfold runcmd at h
    rw [if_neg hc] at h
    cases h

lemma runcmd_eq_ok {env : Env} {cmd : Cmd}
    (h : env.exec cmd = 0 ∨ env.exec cmd = valgrindErrorCode) :
    runcmd env cmd = .ok ⟨env.exec cmd, cmd⟩ := by
  unfold runcmd
  rw [if_pos h]

lemma runcmd_eq_sysExit {env : Env} {cmd : Cmd}
    (h0 : env.exec cmd ≠ 0) (h101 : env.exec cmd ≠ valgrindErrorCode) :
    runcmd env cmd = .sysExit (sysExitMsg cmd (env.exec cmd)) := by
  unfold runcmd
  rw [if_neg (by tauto)]

lemma str_ne_of_get? {a b : String} (n : Nat) (h : a.data[n]? ≠ b.data[n]?) :
    a ≠ b :=
  fun e => h (by rw [e])

lemma noGtestOut_errExit :
    isGtestOutputArg ("--error-exitcode=" ++ toString valgrindErrorCode) = false := by
  decide

lemma noGtestOut_xmlfile (k : String) :
    isGtestOutputArg ("--xml-file=" ++ k ++ "_" ++ valgrindOutput ++ ".xml") = false := by
  unfold isGtestOutputArg
  simp only [String.append_assoc]
  exact beginsWith_lit_app_false "--gtest_output=" "--xml-file=" _ 2
    (by decide) (by decide) (by decide)

lemma noGtestOut_logfile (k : String) :
    isGtestOutputArg ("--log-file=" ++ k ++ "_" ++ valgrindOutput ++ ".log") = false := by
  unfold isGtestOutputArg
  simp only [String.append_assoc]
  exact beginsWith_lit_app_false "--gtest_output=" "--log-file=" _ 2
    (by decide) (by decide) (by decide)

lemma noGtestOut_suppress (sd : String) :
    isGtestOutputArg ("--suppressions=" ++ sd ++ "/" ++ valgrindIgnore) = false := by
  unfold isGtestOutputArg
  simp only [String.append_assoc]
  exact beginsWith_lit_app_false "--gtest_output=" "--suppressions=" _ 2
    (by decide) (by decide) (by decide)

lemma noGtestOut_exe (p s : String) :
    isGtestOutputArg ("." ++ p ++ s) = false := by
  unfold isGtestOutputArg
  simp only [String.append_assoc]
  exact beginsWith_lit_app_false "--gtest_output=" "." _ 0
    (by decide) (by decide) (by decide)

lemma noGtestOut_filterArg (gf : String) :
    isGtestOutputArg ("--gtest_filter=" ++ gf) = false := by
  unfold isGtestOutputArg
  exact beginsWith_lit_app_false "--gtest_output=" "--gtest_filter=" _ 8
    (by decide) (by decide) (by decide)

lemma addValgrind_no_gtestOut (sd k : String) (b1 b2 : Bool) :
    (AddValgrind sd k b1 b2).all (fun a => !(isGtestOutputArg a)) = true := by
  unfold AddValgrind
  cases b2 <;> cases b1 <;>
    simp [List.all_append, Bool.not_eq_true', noGtestOut_xmlfile,
      noGtestOut_logfile, noGtestOut_suppress, noGtestOut_errExit] <;>
    decide

/-- C5: for every configuration with both the valgrind flag and the xml flag
set, the test-binary invocation contains no argument carrying the googletest
structured-results flag `--gtest_output=`. -/
theorem C5_valgrind_suppresses_gtest_xml
    (env : Env) (lt : Bool) (gf : Option String) (od : String)
    (rf : Option String) (x : String) (cov : Bool) (key : String)
    (s : SuiteInfo) :
    (testCmdFor env ⟨lt, gf, od, rf, some x, true, cov⟩ key s).all
      (fun a => !(isGtestOutputArg a)) = true := by
  simp only [testCmdFor]
  cases lt <;> cases gf <;>
    simp [List.all_append, Bool.not_eq_true', addValgrind_no_gtestOut,
      noGtestOut_exe, noGtestOut_filterArg] <;>
    decide

lemma noGtestFilter_errExit :
    isGtestFilterArg ("--error-exitcode=" ++ toString valgrindErrorCode) = false := by
  decide

lemma noGtestFilter_xmlfile (k : String) :
    isGtestFilterArg ("--xml-file=" ++ k ++ "_" ++ valgrindOutput ++ ".xml") = false := by
  unfold isGtestFilterArg
  simp only [String.append_assoc]
  exact beginsWith_lit_app_false "--gtest_filter=" "--xml-file=" _ 2
    (by decide) (by decide) (by decide)

lemma noGtestFilter_logfile (k : String) :
    isGtestFilterArg ("--log-file=" ++ k ++ "_" ++ valgrindOutput ++ ".log") = false := by
  unfold isGtestFilterArg
  simp only [String.append_assoc]
  exact beginsWith_lit_app_false "--gtest_filter=" "--log-file=" _ 2
    (by decide) (by decide) (by decide)

lemma noGtestFilter_suppress (sd : String) :
    isGtestFilterArg ("--suppressions=" ++ sd ++ "/" ++ valgrindIgnore) = false := by
  unfold isGtestFilterArg
  simp only [String.append_assoc]
  exact beginsWith_lit_app_false "--gtest_filter=" "--suppressions=" _ 2
    (by decide) (by decide) (by decide)

lemma noGtestFilter_exe (p s : String) :
    isGtestFilterArg ("." ++ p ++ s) = false := by
  unfold isGtestFilterArg
  simp only [String.append_assoc]
  exact beginsWith_lit_app_false "--gtest_filter=" "." _ 0
    (by decide) (by decide) (by decide)

lemma noGtestFilter_outputArg (k x : String) :
    isGtestFilterArg ("--gtest_output=xml:" ++ k ++ "_" ++ x) = false := by
  unfold isGtestFilterArg
  simp only [String.append_assoc]
  exact beginsWith_lit_app_false "--gtest_filter=" "--gtest_output=xml:" _ 8
    (by decide) (by decide) (by decide)

lemma addValgrind_no_gtestFilter (sd k : String) (b1 b2 : Bool) :
    (AddValgrind sd k b1 b2).all (fun a => !(isGtestFilterArg a)) = true := by
  unfold AddValgrind
  cases b2 <;> cases b1 <;>
    simp [List.all_append, Bool.not_eq_true', noGtestFilter_xmlfile,
      noGtestFilter_logfile, noGtestFilter_suppress, noGtestFilter_errExit] <;>
    decide

/-- C10: for every test-stage invocation with the list-tests flag set and a
test-name filter supplied, the test command contains `--gtest_list_tests` and
no argument carrying the googletest filter flag `--gtest_filter=`: listing
takes precedence over filtering. -/
theorem C10_list_tests_overrides_filter
    (env : Env) (gf : String) (od : String) (rf : Option String)
    (xml : Option String) (vg cov : Bool) (key : String) (s : SuiteInfo) :
    "--gtest_list_tests" ∈ testCmdFor env ⟨true, some gf, od, rf, xml, vg, cov⟩ key s ∧
    (testCmdFor env ⟨true, some gf, od, rf, xml, vg, cov⟩ key s).all
      (fun a => !(isGtestFilterArg a)) = true := by
  constructor
  · simp only [testCmdFor]
    cases xml <;> cases vg <;> simp
  · simp only [testCmdFor]
    cases xml <;> cases vg <;>
      simp [List.all_append, Bool.not_eq_true', addValgrind_no_gtestFilter,
        noGtestFilter_exe, noGtestFilter_outputArg] <;>
      decide

/-- If the suite loop completes reporting failure, either it started with
`hasFailed` already set, or some executed suite command exited with the
tolerated memory-check code. -/
lemma loop_ok_true_101 (env : Env) (cfg : TestCfg) :
    ∀ (suites : List (String × SuiteInfo)) (b : Bool) (tr : List Cmd),
      runTestsLoop env cfg suites b = (tr, .ok true) →
      b = true ∨ ∃ c ∈ tr, env.exec c = valgrindErrorCode
  | [], b, tr, h => by
    simp only [runTestsLoop] at h
    obtain ⟨h1, h2⟩ := Prod.mk.injEq .. ▸ h
    cases h2
    exact Or.inl rfl
  | (key, s) :: rest, b, tr, h => by
    simp only [runTestsLoop] at h
    rcases hrc : runcmd env (testCmdFor env cfg key s) with st | m | m <;>
      rw [hrc] at h <;> dsimp only at h
    · rcases hrest : runTestsLoop env cfg rest
        (if st.returncode = valgrindErrorCode then true
         else if st.returncode ≠ 0 then true else b) with ⟨tr', out'⟩
      rw [hrest] at h
      dsimp only at h
      obtain ⟨htr, hout⟩ := Prod.mk.injEq .. ▸ h
      subst htr
      cases hout
      obtain ⟨hst, hcode⟩ := runcmd_ok_inv hrc
      rcases loop_ok_true_101 env cfg rest _ tr' hrest with hb' | ⟨c, hc, h101⟩
      · rcases hcode with h0 | h101
        · rw [hst] at hb'
          simp only [h0] at hb'
          rw [if_neg (by simp [valgrindErrorCode]), if_neg (by simp)] at hb'
          exact Or.inl hb'
        · exact Or.inr ⟨testCmdFor env cfg key s, by simp, h101⟩
      · exact Or.inr ⟨c, by simp [hc], h101⟩
    · simp at h
    · simp at h

/-- The trace of the suite loop over a single suite is that suite's command,
whatever the outcome. -/
lemma loop_singleton_trace (env : Env) (cfg : TestCfg) (key : String)
    (s : SuiteInfo) (b : Bool) :
    (runTestsLoop env cfg [(key, s)] b).1 = [testCmdFor env cfg key s] := by
  simp only [runTestsLoop]
  rcases runcmd env (testCmdFor env cfg key s) with st | m | m <;> simp

/-! ## Concrete fixtures used by witnesses and counterexamples -/

def fswQuiet : FsWorld := ⟨false, false, none, none⟩

/-- Environment in which every external command exits with code 0. -/
def envExec0 : Env := ⟨fun _ => 0, 2, "/rialto", fswQuiet, false⟩

/-- Environment in which every external command exits with the tolerated
memory-check code. -/
def envExec101 : Env := ⟨fun _ => valgrindErrorCode, 2, "/rialto", fswQuiet, false⟩

/-- Environment in which every external command exits with code 1. -/
def envExec1 : Env := ⟨fun _ => 1, 2, "/rialto", fswQuiet, false⟩

/-- Environment in which every external command exits with code 5. -/
def envExec5 : Env := ⟨fun _ => 5, 2, "/rialto", fswQuiet, false⟩

/-- A plain test configuration (no optional flags). -/
def cfgPlain : TestCfg := ⟨false, none, "build", none, none, false, false⟩

/-- A test configuration with only the coverage flag set. -/
def cfgCov : TestCfg := ⟨false, none, "build", none, none, false, true⟩

/-- A second suite, to exhibit loop continuation. -/
def suiteB : SuiteInfo := ⟨"OtherUnitTests", "/tests/ut/"⟩

/-! ## Claims -/

/-- C1: in the test loop, a suite command exiting with the reserved
memory-check code is recorded as failed (`hasFailed` becomes `true`) and the
loop continues with the remaining suites; a suite command exiting with any
other non-zero code makes `runcmd` terminate the whole run via `sys.exit`,
executing no remaining suite. -/
theorem C1_memcheck_tolerated_others_halt
    (env : Env) (cfg : TestCfg) (key : String) (s : SuiteInfo)
    (rest : List (String × SuiteInfo)) (hf : Bool) :
    (env.exec (testCmdFor env cfg key s) = valgrindErrorCode →
      runTestsLoop env cfg ((key, s) :: rest) hf =
        (testCmdFor env cfg key s :: (runTestsLoop env cfg rest true).1,
          (runTestsLoop env cfg rest true).2)) ∧
    (∀ rc : Int, env.exec (testCmdFor env cfg key s) = rc → rc ≠ 0 →
      rc ≠ valgrindErrorCode →
      runTestsLoop env cfg ((key, s) :: rest) hf =
        ([testCmdFor env cfg key s],
          .sysExit (sysExitMsg (testCmdFor env cfg key s) rc))) := by
  constructor
  · intro h
    simp only [runTestsLoop]
    rw [runcmd_eq_ok (Or.inr h)]
    dsimp only
    rw [h, if_pos rfl]
  · intro rc hrc h0 h101
    simp only [runTestsLoop]
    have hcmd : runcmd env (testCmdFor env cfg key s) =
        .sysExit (sysExitMsg (testCmdFor env cfg key s)
          (env.exec (testCmdFor env cfg key s))) :=
      runcmd_eq_sysExit (by rw [hrc]; exact h0) (by rw [hrc]; exact h101)
    rw [hcmd, hrc]

/-- Witness for C1: with two configured suites, exit code 101 of the first
suite continues into the second, and exit code 5 stops the run at once. -/
theorem C1_witness :
    (runTestsLoop envExec101 cfgPlain [("gst", gstSuite), ("b", suiteB)] false =
      (testCmdFor envExec101 cfgPlain "gst" gstSuite ::
        (runTestsLoop envExec101 cfgPlain [("b", suiteB)] true).1,
        (runTestsLoop envExec101 cfgPlain [("b", suiteB)] true).2)) ∧
    (runTestsLoop envExec5 cfgPlain [("gst", gstSuite), ("b", suiteB)] false =
      ([testCmdFor envExec5 cfgPlain "gst" gstSuite],
        .sysExit (sysExitMsg (testCmdFor envExec5 cfgPlain "gst" gstSuite) 5))) :=
  ⟨(C1_memcheck_tolerated_others_halt envExec101 cfgPlain "gst" gstSuite
      [("b", suiteB)] false).1 rfl,
   (C1_memcheck_tolerated_others_halt envExec5 cfgPlain "gst" gstSuite
      [("b", suiteB)] false).2 5 rfl (by decide) (by decide)⟩

/-- C9: whenever `runcmd` returns a status (rather than terminating the
process), that status's exit code is 0 or the reserved memory-check code; so
in the test loop a suite can only be recorded as failed through a command
whose exit code is the memory-check code. -/
theorem C9_returned_codes_and_failure_source :
    (∀ (env : Env) (cmd : Cmd) (st : CompletedProcess),
      runcmd env cmd = .ok st →
      st.returncode = 0 ∨ st.returncode = valgrindErrorCode) ∧
    (∀ (env : Env) (cfg : TestCfg) (suites : List (String × SuiteInfo))
      (tr : List Cmd),
      runTestsLoop env cfg suites false = (tr, .ok true) →
      ∃ c ∈ tr, env.exec c = valgrindErrorCode) := by
  constructor
  · intro env cmd st h
    obtain ⟨hst, hcode⟩ := runcmd_ok_inv h
    rw [hst]
    exact hcode
  · intro env cfg suites tr h
    rcases loop_ok_true_101 env cfg suites false tr h with hb | hex
    · cases hb
    · exact hex

/-- Witness for C9 at concrete inputs. -/
theorem C9_witness :
    ((⟨(0 : Int), ([] : Cmd)⟩ : CompletedProcess).returncode = 0 ∨
      (⟨(0 : Int), ([] : Cmd)⟩ : CompletedProcess).returncode = valgrindErrorCode) ∧
    (∃ c ∈ [testCmdFor envExec101 cfgPlain "gst" gstSuite],
      envExec101.exec c = valgrindErrorCode) :=
  ⟨C9_returned_codes_and_failure_source.1 envExec0 [] ⟨0, []⟩ rfl,
   C9_returned_codes_and_failure_source.2 envExec101 cfgPlain [("gst", gstSuite)]
     [testCmdFor envExec101 cfgPlain "gst" gstSuite] rfl⟩

/-- C6: when the suite loop completes with a recorded failure and coverage is
requested, `runTests` raises the aggregate exception with the loop's trace
unchanged: the coverage report generator is never invoked. -/
theorem C6_failure_skips_coverage
    (env : Env) (cfg : TestCfg) (suites : List (String × SuiteInfo))
    (tr : List Cmd) (_hcov : cfg.coverage = true)
    (h : runTestsLoop env cfg suites false = (tr, .ok true)) :
    runTests env cfg suites = (tr, .raised "runTests has failed, exiting") := by
  unfold runTests
  rw [h]
  rfl

/-- Witness for C6: one suite failing with the memory-check code under the
coverage flag; no coverage command is run. -/
theorem C6_witness :
    runTests envExec101 cfgCov [("gst", gstSuite)] =
      ([testCmdFor envExec101 cfgCov "gst" gstSuite],
        .raised "runTests has failed, exiting") :=
  C6_failure_skips_coverage envExec101 cfgCov [("gst", gstSuite)]
    [testCmdFor envExec101 cfgCov "gst" gstSuite] rfl rfl

/-- Counterexample to C2 as stated: in the clean stage, a non-zero exit code
of the external `rm` command (here 1, e.g. a permission error) reaches
`runcmd`, which terminates the whole run via `sys.exit` — so not every
cleanup failure is caught. -/
theorem C2_counterexample :
    ((cleanStage envExec1 "build").2).isSysExit = true := rfl

/-- C2 (amended): every error of `checkAndRemoveFiles` (third-party
headers/source removal) is caught and the function returns normally; the
`rm` of the build directory and log files, however, runs through `runcmd`:
exit code 0 or the memory-check code lets the run continue, any other
non-zero exit code terminates the run via `sys.exit`. -/
theorem C2_clean_error_policy (fsw : FsWorld) (env : Env) (od : String) :
    ((checkAndRemoveFiles fsw).2 = .ok ()) ∧
    (env.exec (rmCmdOf od) = 0 ∨ env.exec (rmCmdOf od) = valgrindErrorCode →
      cleanStage env od = ([rmCmdOf od], .ok ())) ∧
    (∀ rc : Int, env.exec (rmCmdOf od) = rc → rc ≠ 0 →
      rc ≠ valgrindErrorCode →
      cleanStage env od =
        ([rmCmdOf od], .sysExit (sysExitMsg (rmCmdOf od) rc))) := by
  refine ⟨?_, ?_, ?_⟩
  · unfold checkAndRemoveFiles
    rcases h : checkAndRemoveTry fsw with ⟨p, e⟩
    cases e <;> simp
  · intro h
    unfold cleanStage
    dsimp only
    rw [runcmd_eq_ok h]
  · intro rc hrc h0 h101
    unfold cleanStage
    dsimp only
    have hcmd : runcmd env (rmCmdOf od) =
        .sysExit (sysExitMsg (rmCmdOf od) (env.exec (rmCmdOf od))) :=
      runcmd_eq_sysExit (by rw [hrc]; exact h0) (by rw [hrc]; exact h101)
    rw [hcmd, hrc]

/-- Witness for C2 (amended) at concrete inputs: a raising filesystem
removal is swallowed; an `rm` exit of 0 continues; an `rm` exit of 5
terminates. -/
theorem C2_witness :
    ((checkAndRemoveFiles ⟨true, true, some "Permission denied", none⟩).2 =
      .ok ()) ∧
    (cleanStage envExec0 "build" = ([rmCmdOf "build"], .ok ())) ∧
    (cleanStage envExec5 "build" =
      ([rmCmdOf "build"], .sysExit (sysExitMsg (rmCmdOf "build") 5))) :=
  ⟨(C2_clean_error_policy ⟨true, true, some "Permission denied", none⟩
      envExec0 "build").1,
   (C2_clean_error_policy fswQuiet envExec0 "build").2.1 (Or.inl rfl),
   (C2_clean_error_policy fswQuiet envExec5 "build").2.2 5 rfl
     (by decide) (by decide)⟩

/-- Environment in which exactly the `cmake` command exits with the
memory-check code 101 and every other command succeeds. -/
def envCmake101 : Env :=
  ⟨fun c => if c.head? = some "cmake" then valgrindErrorCode else 0, 2,
    "/rialto", fswQuiet, false⟩

/-- Counterexample to C4 as stated: the `cmake` command exits with the
non-zero code 101, yet the run does not abort — `make` is still invoked and
the build stage returns normally, because `runcmd` tolerates the
memory-check code for every command. -/
theorem C4_counterexample :
    envCmake101.exec (cmakeCmdOf "build" "" false) = valgrindErrorCode ∧
    buildTargets envCmake101 suitesToRun "build" none false false "" =
      ([cmakeCmdOf "build" "" false, makeCmdOf 2 suitesToRun], .ok ()) :=
  ⟨rfl, rfl⟩

/-- C4 (amended): any exit code of `cmake` or `make` other than 0 and the
memory-check code 101 terminates the run immediately via `sys.exit`, with no
retry (`make` is not reached when `cmake` fails so); an exit code of 101
from `cmake` is tolerated and the build continues into `make`. -/
theorem C4_build_fail_fast
    (env : Env) (suites : List (String × SuiteInfo)) (od : String)
    (rf : Option String) (dbg cov : Bool) (br : String) :
    (∀ rc : Int, env.exec (cmakeCmdOf od br cov) = rc → rc ≠ 0 →
      rc ≠ valgrindErrorCode →
      buildTargets env suites od rf dbg cov br =
        ([cmakeCmdOf od br cov],
          .sysExit (sysExitMsg (cmakeCmdOf od br cov) rc))) ∧
    ((env.exec (cmakeCmdOf od br cov) = 0 ∨
        env.exec (cmakeCmdOf od br cov) = valgrindErrorCode) →
      ∀ rc : Int, env.exec (makeCmdOf env.cpuCount suites) = rc → rc ≠ 0 →
        rc ≠ valgrindErrorCode →
        buildTargets env suites od rf dbg cov br =
          ([cmakeCmdOf od br cov, makeCmdOf env.cpuCount suites],
            .sysExit (sysExitMsg (makeCmdOf env.cpuCount suites) rc))) ∧
    ((env.exec (cmakeCmdOf od br cov) = valgrindErrorCode →
      env.exec (makeCmdOf env.cpuCount suites) = 0 ∨
        env.exec (makeCmdOf env.cpuCount suites) = valgrindErrorCode →
      buildTargets env suites od rf dbg cov br =
        ([cmakeCmdOf od br cov, makeCmdOf env.cpuCount suites], .ok ()))) := by
  refine ⟨?_, ?_, ?_⟩
  · intro rc hrc h0 h101
    unfold buildTargets
    dsimp only
    have hcmd : runcmd env (cmakeCmdOf od br cov) =
        .sysExit (sysExitMsg (cmakeCmdOf od br cov)
          (env.exec (cmakeCmdOf od br cov))) :=
      runcmd_eq_sysExit (by rw [hrc]; exact h0) (by rw [hrc]; exact h101)
    rw [hcmd, hrc]
  · intro hc rc hrc h0 h101
    unfold buildTargets
    dsimp only
    rw [runcmd_eq_ok hc]
    have hcmd : runcmd env (makeCmdOf env.cpuCount suites) =
        .sysExit (sysExitMsg (makeCmdOf env.cpuCount suites)
          (env.exec (makeCmdOf env.cpuCount suites))) :=
      runcmd_eq_sysExit (by rw [hrc]; exact h0) (by rw [hrc]; exact h101)
    rw [hcmd, hrc]
  · intro hc hm
    unfold buildTargets
    dsimp only
    rw [runcmd_eq_ok (Or.inr hc), runcmd_eq_ok hm]

/-- Witness for C4 (amended) at concrete inputs: a `cmake` exit of 5
terminates the run before `make`; after a tolerated `cmake`, a `make` exit of
5 terminates; a `cmake` exit of 101 with succeeding `make` lets the build
finish. -/
theorem C4_witness :
    (buildTargets envExec5 suitesToRun "build" none false false "" =
      ([cmakeCmdOf "build" "" false],
        .sysExit (sysExitMsg (cmakeCmdOf "build" "" false) 5))) ∧
    (buildTargets envCmake101 suitesToRun "build" none false false "" =
      ([cmakeCmdOf "build" "" false, makeCmdOf 2 suitesToRun], .ok ())) :=
  ⟨(C4_build_fail_fast envExec5 suitesToRun "build" none false false "").1 5
      rfl (by decide) (by decide),
   (C4_build_fail_fast envCmake101 suitesToRun "build" none false false
      "").2.2 rfl (Or.inl rfl)⟩

/-- C3: contrary to the claim, a failing coverage-pipeline step does not make
the generator return the boolean `False`: `runcmd` either terminates the
whole process via `sys.exit` (any exit code outside 0/101) or returns a
`CompletedProcess`, which is always truthy in Python, so the
`if not status: return False` guards never fire.  Concretely, when the
baseline-capture step exits with code 1 the run is terminated via `sys.exit`
after only that step; and on every input the generator's outcome is never a
normally returned `False`. -/
theorem C3_cov_failing_step_exits_not_false :
    (generateCoverageReport envExec1 "build" none =
      ([lcovBaseCmd], .sysExit (sysExitMsg lcovBaseCmd 1))) ∧
    (∀ (env : Env) (od : String) (rf : Option String),
      ((generateCoverageReport env od rf).2).isOkPyFalse = false) := by
  constructor
  · rfl
  · intro env od rf
    unfold generateCoverageReport
    repeat' split
    all_goals simp_all [truthy, fileTruthy, Outcome.isOkPyFalse, pyAnd, truthyVal]

lemma branchFlag_ne_covFlag (br : String) :
    ("-DBUILD_BRANCH=" ++ br) ≠ "-DCOVERAGE_ENABLED=1" := by
  apply str_ne_of_get? 2
  rw [strApp_getElem?_left _ _ 2 (by decide)]
  decide

/-- C8: the configuration command contains the unit-test build-mode flag, the
raw-format feature flag and the branch flag, and contains the
coverage-instrumentation flag exactly when coverage is requested (provided
the output directory is not itself that flag string); when `cmake` succeeds,
the build stage's trace is `cmake` followed by a `make` whose job count is
the host's processor count and whose targets are exactly the configured
suite binary names. -/
theorem C8_build_command_contents
    (env : Env) (suites : List (String × SuiteInfo)) (od : String)
    (rf : Option String) (dbg cov : Bool) (br : String)
    (hcmake : env.exec (cmakeCmdOf od br cov) = 0)
    (hod : od ≠ "-DCOVERAGE_ENABLED=1") :
    ("-DCMAKE_BUILD_FLAG=UnitTests" ∈ cmakeCmdOf od br cov) ∧
    ("-DRIALTO_ENABLE_X_RAW=1" ∈ cmakeCmdOf od br cov) ∧
    (("-DBUILD_BRANCH=" ++ br) ∈ cmakeCmdOf od br cov) ∧
    (("-DCOVERAGE_ENABLED=1" ∈ cmakeCmdOf od br cov) ↔ cov = true) ∧
    ((buildTargets env suites od rf dbg cov br).1 =
      [cmakeCmdOf od br cov,
        ["make", "-j" ++ toString env.cpuCount] ++
          suites.map (fun p => p.2.suite)]) := by
  refine ⟨?_, ?_, ?_, ?_, ?_⟩
  · unfold cmakeCmdOf
    cases cov <;> simp
  · unfold cmakeCmdOf
    cases cov <;> simp
  · unfold cmakeCmdOf
    cases cov <;> simp
  · unfold cmakeCmdOf
    cases cov <;> simp
    exact ⟨fun h => hod h.symm, fun h => branchFlag_ne_covFlag br h.symm⟩
  · unfold buildTargets
    dsimp only
    rw [runcmd_eq_ok (Or.inl hcmake)]
    rcases hm : runcmd env (makeCmdOf env.cpuCount suites) with st | m | m <;>
      simp [makeCmdOf]

/-- Witness for C8 at concrete inputs (coverage requested). -/
theorem C8_witness :
    ("-DCMAKE_BUILD_FLAG=UnitTests" ∈ cmakeCmdOf "build" "" true) ∧
    ("-DRIALTO_ENABLE_X_RAW=1" ∈ cmakeCmdOf "build" "" true) ∧
    (("-DBUILD_BRANCH=" ++ "") ∈ cmakeCmdOf "build" "" true) ∧
    (("-DCOVERAGE_ENABLED=1" ∈ cmakeCmdOf "build" "" true) ↔ true = true) ∧
    ((buildTargets envExec0 suitesToRun "build" none false true "").1 =
      [cmakeCmdOf "build" "" true,
        ["make", "-j" ++ toString (2 : Nat)] ++
          suitesToRun.map (fun p => p.2.suite)]) :=
  C8_build_command_contents envExec0 suitesToRun "build" none false true ""
    rfl (by decide)

lemma cleanStage_ok (env : Env) (od : String)
    (h : env.exec (rmCmdOf od) = 0) :
    cleanStage env od = ([rmCmdOf od], .ok ()) := by
  unfold cleanStage
  dsimp only
  rw [runcmd_eq_ok (Or.inl h)]

lemma cleanStage_trace (env : Env) (od : String) :
    (cleanStage env od).1 = [rmCmdOf od] := by
  unfold cleanStage
  dsimp only
  cases h : runcmd env (rmCmdOf od) <;> rfl

lemma buildTargets_ok (env : Env) (suites : List (String × SuiteInfo))
    (od : String) (rf : Option String) (dbg cov : Bool) (br : String)
    (h1 : env.exec (cmakeCmdOf od br cov) = 0)
    (h2 : env.exec (makeCmdOf env.cpuCount suites) = 0) :
    buildTargets env suites od rf dbg cov br =
      ([cmakeCmdOf od br cov, makeCmdOf env.cpuCount suites], .ok ()) := by
  unfold buildTargets
  dsimp only
  rw [runcmd_eq_ok (Or.inl h1), runcmd_eq_ok (Or.inl h2)]

lemma covReport_all0 (env : Env) (od : String) (rf : Option String)
    (h0 : ∀ c, env.exec c = 0) (hs : env.statsOpenFails = false) :
    generateCoverageReport env od rf =
      (covCmds, .ok (.proc ⟨0, genStatsCmd⟩)) := by
  unfold generateCoverageReport
  rw [runcmd_eq_ok (Or.inl (h0 lcovBaseCmd)),
      runcmd_eq_ok (Or.inl (h0 lcovTestCmd)),
      runcmd_eq_ok (Or.inl (h0 lcovCombineCmd)),
      runcmd_eq_ok (Or.inl (h0 genHtmlCmd)),
      runcmd_eq_ok (Or.inl (h0 genStatsCmd))]
  simp [truthy, fileTruthy, hs, pyAnd, truthyVal, h0]

lemma runTests_all0 (env : Env) (cfg : TestCfg)
    (h0 : ∀ c, env.exec c = 0) (hs : env.statsOpenFails = false) :
    runTests env cfg suitesToRun =
      (testCmdFor env cfg "gst" gstSuite ::
        (if cfg.coverage then covCmds else []), .ok ()) := by
  have hloop : runTestsLoop env cfg suitesToRun false =
      ([testCmdFor env cfg "gst" gstSuite], .ok false) := by
    simp only [suitesToRun, runTestsLoop]
    rw [runcmd_eq_ok (Or.inl (h0 (testCmdFor env cfg "gst" gstSuite)))]
    dsimp only
    rw [h0]
    norm_num [valgrindErrorCode]
  unfold runTests
  rw [hloop]
  dsimp only
  cases hc : cfg.coverage
  · simp
  · rw [covReport_all0 env cfg.outputDir cfg.resultsFile h0 hs]
    simp

lemma addValgrind_head (sd k : String) (b1 b2 : Bool) :
    (AddValgrind sd k b1 b2).head? = some "valgrind" := by
  unfold AddValgrind
  cases b2 <;> cases b1 <;> simp

lemma testCmd_head (env : Env) (cfg : TestCfg) (key : String) (s : SuiteInfo) :
    (testCmdFor env cfg key s).head? = some "valgrind" ∨
    (testCmdFor env cfg key s).head? = some ("." ++ s.path ++ s.suite) := by
  unfold testCmdFor
  cases hv : cfg.valgrind <;> cases hx : cfg.xmlFile <;>
    cases hl : cfg.doListTests <;> cases hg : cfg.gtestFilter <;>
    simp [List.head?_append, addValgrind_head, Option.or]

lemma covCmds_heads (c : Cmd) (hc : c ∈ covCmds) :
    c.head? = some "lcov" ∨ c.head? = some "genhtml" := by
  simp only [covCmds, List.mem_cons, List.not_mem_nil, or_false] at hc
  rcases hc with rfl | rfl | rfl | rfl | rfl <;>
    simp [lcovBaseCmd, lcovTestCmd, lcovCombineCmd, genHtmlCmd, genStatsCmd]

lemma covTrace_sub (env : Env) (od : String) (rf : Option String) :
    ∀ c ∈ (generateCoverageReport env od rf).1, c ∈ covCmds := by
  intro c hc
  unfold generateCoverageReport at hc
  repeat' split at hc
  all_goals
    simp only [covCmds, List.mem_cons, List.not_mem_nil, or_false] at hc ⊢
  all_goals tauto

lemma runTests_trace_mem (env : Env) (cfg : TestCfg) :
    ∀ c ∈ (runTests env cfg suitesToRun).1,
      c = testCmdFor env cfg "gst" gstSuite ∨ c ∈ covCmds := by
  intro c hc
  unfold runTests at hc
  rcases hl : runTestsLoop env cfg suitesToRun false with ⟨tr, out⟩
  rw [hl] at hc
  have htr : tr = [testCmdFor env cfg "gst" gstSuite] := by
    have h1 := loop_singleton_trace env cfg "gst" gstSuite false
    rw [show ([("gst", gstSuite)] : List (String × SuiteInfo)) = suitesToRun
      from rfl, hl] at h1
    exact h1
  subst htr
  rcases out with hf | m | m
  · dsimp only at hc
    split at hc
    · exact Or.inl (by simpa using hc)
    · split at hc
      · split at hc <;>
          · rename_i heq
            dsimp only at hc
            rcases List.mem_append.1 hc with h | h
            · exact Or.inl (by simpa using h)
            · refine Or.inr ?_
              have := covTrace_sub env cfg.outputDir cfg.resultsFile c
              rw [heq] at this
              exact this h
      · exact Or.inl (by simpa using hc)
  · exact Or.inl (by simpa using hc)
  · exact Or.inl (by simpa using hc)

lemma mainRun_trace_mem_noBuild (env : Env) (args : Args)
    (hnb : args.noBuild = true) :
    ∀ c ∈ (mainRun env args).1,
      c = rmCmdOf args.output ∨
      c = testCmdFor env (mainCfg args) "gst" gstSuite ∨ c ∈ covCmds := by
  intro c hc
  unfold mainRun at hc
  rw [hnb] at hc
  have hcl : ∀ x ∈ (if args.clean then cleanStage env args.output
      else ([], .ok ())).1, x = rmCmdOf args.output := by
    intro x hx
    split at hx
    · rw [cleanStage_trace] at hx
      simpa using hx
    · simp at hx
  rcases h1 : (if args.clean then cleanStage env args.output
      else (([], .ok ()) : List Cmd × Outcome Unit)) with ⟨tr1, out1⟩
  rw [h1] at hc hcl
  rcases out1 with u | m | m <;> dsimp only at hc
  · rw [if_neg (by simp)] at hc
    dsimp only at hc
    rcases h3 : (if args.noTest = false
        then runTests env (mainCfg args) suitesToRun
        else (([], .ok ()) : List Cmd × Outcome Unit)) with ⟨tr3, out3⟩
    rw [h3] at hc
    dsimp only at hc
    rcases List.mem_append.1 hc with h | h
    · rcases List.mem_append.1 h with h | h
      · exact Or.inl (hcl c h)
      · simp at h
    · refine Or.inr ?_
      have h4 : ∀ x ∈ tr3,
          x = testCmdFor env (mainCfg args) "gst" gstSuite ∨ x ∈ covCmds := by
        intro x hx
        by_cases hnt : args.noTest = false
        · rw [if_pos hnt] at h3
          have := runTests_trace_mem env (mainCfg args) x
          rw [h3] at this
          exact this hx
        · rw [if_neg hnt] at h3
          cases h3
          simp at hx
      exact h4 c h
  · exact Or.inl (hcl c hc)
  · exact Or.inl (hcl c hc)

/-- C7: the build stage runs exactly when `noBuild` is absent and the test
stage exactly when `noTest` is absent, with build before test: when every
external command succeeds, the run's trace is the optional clean `rm`,
then the `cmake`/`make` pair unless `noBuild` is set, then the suite command
(and coverage pipeline) unless `noTest` is set, and the run returns
normally; moreover with `noBuild` set no command of the run is a `cmake` or
`make` invocation, whatever the exit codes. -/
theorem C7_stage_gating (env : Env) (args : Args) :
    ((∀ c, env.exec c = 0) → env.statsOpenFails = false →
      mainRun env args =
        ((if args.clean then [rmCmdOf args.output] else []) ++
         (if args.noBuild then []
          else [cmakeCmdOf args.output args.branch args.coverage,
                makeCmdOf env.cpuCount suitesToRun]) ++
         (if args.noTest then []
          else mainTestCmd env args ::
            (if args.coverage then covCmds else [])),
         .ok ())) ∧
    (args.noBuild = true → ∀ c ∈ (mainRun env args).1,
      ¬c.head? = some "cmake" ∧ ¬c.head? = some "make") := by
  constructor
  · intro h0 hs
    unfold mainRun
    rw [cleanStage_ok env args.output (h0 _),
        buildTargets_ok env suitesToRun args.output (resultsFileOf args)
          args.valgrind args.coverage args.branch (h0 _) (h0 _),
        runTests_all0 env (mainCfg args) h0 hs]
    cases args.clean <;> cases args.noBuild <;> cases args.noTest <;>
      simp [mainTestCmd, mainCfg]
  · intro hnb c hc
    rcases mainRun_trace_mem_noBuild env args hnb c hc with h | h | h
    · rw [h]
      constructor <;> simp [rmCmdOf]
    · rcases testCmd_head env (mainCfg args) "gst" gstSuite with hh | hh <;>
        rw [h, hh]
      · exact ⟨by decide, by decide⟩
      · exact ⟨by decide, by decide⟩
    · rcases covCmds_heads c h with hh | hh <;> rw [hh]
      · exact ⟨by decide, by decide⟩
      · exact ⟨by decide, by decide⟩

/-- The invocation with only the `noBuild` flag. -/
def argsNoBuild : Args := { noBuild := true }

/-- Witness for C7: with no flags and all commands succeeding, the run
executes `cmake`, `make`, then the suite binary, in that order; with
`noBuild`, the suite command that does run is no build-tool invocation. -/
theorem C7_witness :
    (mainRun envExec0 defaultArgs =
      ([cmakeCmdOf "build" "" false, makeCmdOf 2 suitesToRun,
        mainTestCmd envExec0 defaultArgs], .ok ())) ∧
    (¬(mainTestCmd envExec0 argsNoBuild).head? = some "cmake" ∧
      ¬(mainTestCmd envExec0 argsNoBuild).head? = some "make") := by
  constructor
  · have h := (C7_stage_gating envExec0 defaultArgs).1 (fun _ => rfl) rfl
    simpa [defaultArgs] using h
  · have h := (C7_stage_gating envExec0 argsNoBuild).1 (fun _ => rfl) rfl
    have hm : mainTestCmd envExec0 argsNoBuild ∈ (mainRun envExec0 argsNoBuild).1 := by
      rw [h]
      simp [argsNoBuild]
    exact (C7_stage_gating envExec0 argsNoBuild).2 rfl _ hm
